import Mathlib

/-
Shallow embedding of the GoCalculate arithmetic engine (main.go).

Modelling choices:
- Go float64 values are modelled as exact rationals (Rat), with the field
  operations written out as explicit normalized fractions (ratAdd, ratSub,
  ratMul, ratDiv, ratNeg) so all theorems are checkable by evaluation.
  Every concrete computation exercised by the theorems below is exact in
  binary64 (small integers and one-decimal values), so the Rat model and
  the float64 code agree on all evaluated inputs.
- Go panics (division by zero, unparseable literal, unknown operator) are
  modelled as Except.error carrying the panic message; a normal return is
  Except.ok.
- strconv.FormatFloat(v, 'f', -1, 64) (shortest round-tripping decimal) is
  modelled for values with at most four decimal places, which is every
  output of roundFloat(_, 4): the shortest representation of such a value
  is its fixed decimal form with trailing zeros removed.
- parser.ParseExpr from the Go standard library (used by the validator) is
  modelled by a scanner + recursive-descent expression parser for the
  fragment reachable through the validator's character class
  [0-9.+-*/()  and whitespace]: integer/float literals (with the octal
  leading-zero rule), the ++ -- INC/DEC tokens, unary + - *, binary
  + - * / with Go precedences, parenthesized expressions, call suffixes,
  comments, and automatic semicolon insertion at newlines/EOF.
-/

namespace GoCalculate

/-- Set of ASCII digits, matching the regex class 0-9 and (on the ASCII
strings reaching the tokenizer) unicode.IsDigit. -/
def isDigitChar (c : Char) : Bool := '0' ≤ c && c ≤ '9'

/-- Character class of the validator's regular expression
[0-9\+\-\*/\(\)\s.] ; Go's \s is tab, newline, form feed, carriage return
and space. -/
def isRegexAllowed (c : Char) : Bool :=
  isDigitChar c || c = '+' || c = '-' || c = '*' || c = '/' ||
  c = '(' || c = ')' || c = '.' ||
  c = ' ' || c = '\t' || c = '\n' || c = '\x0c' || c = '\r'

/-- Digits of a literal interpreted in base 10. -/
def digitsToNat (cs : List Char) : Nat :=
  cs.foldl (fun n c => n * 10 + (c.toNat - '0'.toNat)) 0

/-- Exact rational addition a/b + c/d = (ad + cb)/(bd), written with mkRat
so that every theorem below can be checked by evaluation. -/
def ratAdd (a b : Rat) : Rat :=
  mkRat (a.num * b.den + b.num * a.den) (a.den * b.den)

/-- Exact rational negation. -/
def ratNeg (a : Rat) : Rat := mkRat (-a.num) a.den

/-- Exact rational subtraction a/b - c/d = (ad - cb)/(bd). -/
def ratSub (a b : Rat) : Rat :=
  mkRat (a.num * b.den - b.num * a.den) (a.den * b.den)

/-- Exact rational multiplication (a/b)(c/d) = (ac)/(bd). -/
def ratMul (a b : Rat) : Rat := mkRat (a.num * b.num) (a.den * b.den)

/-- Exact rational division (a/b)/(c/d) = (ad)/(bc), the sign moved into
the numerator; division by zero never occurs in the engine because the
evaluator tests the right operand first. -/
def ratDiv (a b : Rat) : Rat :=
  let n : Int := a.num * b.den
  let d : Int := a.den * b.num
  if d < 0 then mkRat (-n) (-d).toNat else mkRat n d.toNat

/-- Mantissa part of strconv.ParseFloat on the token alphabet (digits and
at most one dot, at least one digit overall). -/
def parseMantissa (cs : List Char) : Option Rat :=
  let intPart := cs.takeWhile isDigitChar
  let rest := cs.dropWhile isDigitChar
  match rest with
  | [] => if intPart = [] then none else some (mkRat (digitsToNat intPart) 1)
  | '.' :: frac =>
    if frac.all isDigitChar && (intPart ≠ [] || frac ≠ []) then
      some (mkRat (digitsToNat intPart * 10 ^ frac.length + digitsToNat frac)
        (10 ^ frac.length))
    else none
  | _ => none

/-- Model of strconv.ParseFloat restricted to the strings the engine can
produce as tokens (optional sign, digits, at most one dot); returns none
exactly when ParseFloat returns an error on such strings. -/
def parseFloat (s : String) : Option Rat :=
  match s.data with
  | [] => none
  | '-' :: cs => (parseMantissa cs).map ratNeg
  | '+' :: cs => parseMantissa cs
  | cs => parseMantissa cs

/- Tokenizer (tokenizeExpression in main.go). -/

/-- State threaded through the tokenizer loop: emitted tokens, the pending
number builder, and prevToken (updated only when an operator or a
parenthesis token is emitted, exactly as in the source). -/
structure TokState where
  tokens : List String
  number : List Char
  prevToken : String
deriving Repr, DecidableEq

/-- Flush the pending number builder into the token list (the
`if number.Len() > 0` blocks of the source). -/
def flushNumber (st : TokState) : TokState :=
  if st.number.isEmpty then st
  else { st with tokens := st.tokens ++ [String.mk st.number], number := [] }

/-- Last character of a token (the source reads the last byte; all tokens
are nonempty ASCII strings). -/
def lastChar (s : String) : Char := s.data.getLastD ' '

/-- One iteration of the tokenizer's character loop. `i` is the position of
the character (the source uses the byte offset, which is compared only
against 0; position 0 coincides with byte offset 0). -/
def tokStep (i : Nat) (ch : Char) (st : TokState) : TokState :=
  if isDigitChar ch || ch = '.' then
    { st with number := st.number ++ [ch] }
  else if ch = '+' || ch = '-' || ch = '*' || ch = '/' then
    let st1 := flushNumber st
    if ch = '-' && (i = 0 || st1.prevToken = "(" || st1.prevToken = "" ||
        st1.prevToken = "+" || st1.prevToken = "-" || st1.prevToken = "*" ||
        st1.prevToken = "/") then
      { st1 with number := st1.number ++ [ch] }
    else
      { st1 with tokens := st1.tokens ++ [String.singleton ch],
                 prevToken := String.singleton ch }
  else if ch = '(' || ch = ')' then
    let st1 := flushNumber st
    let st2 :=
      if ch = '(' && st1.tokens.length > 0 then
        let lastToken := st1.tokens.getLastD ""
        if isDigitChar (lastChar lastToken) || lastToken = ")" then
          { st1 with tokens := st1.tokens ++ ["*"] }
        else st1
      else st1
    { st2 with tokens := st2.tokens ++ [String.singleton ch],
               prevToken := String.singleton ch }
  else if ch = ' ' then st
  else st

/-- tokenizeExpression from main.go: left-to-right scan, accumulating
digits/dots, folding unary minus into the number builder, inserting
implicit multiplication before '(' after a number or ')', skipping spaces,
and flushing the trailing number at end of input.  Unknown characters are
printed and skipped in the source; the state is unchanged. -/
def tokenizeExpression (expression : String) : List String :=
  let st := expression.data.enum.foldl (fun st p => tokStep p.1 p.2 st)
    { tokens := [], number := [], prevToken := "" }
  (flushNumber st).tokens

/- Expression tree (the Node struct; Go's nil pointer is the nil
constructor). -/

/-- Binary tree node of the source: a string value and two child pointers,
with nil modelling Go's nil *Node. -/
inductive Node where
  | nil : Node
  | node (value : String) (left : Node) (right : Node) : Node
deriving Repr, DecidableEq

/-- Precedence map of buildTree: + - map to 1, * / map to 2, everything
else is absent. -/
def precedenceOf (s : String) : Option Int :=
  if s = "+" || s = "-" then some 1
  else if s = "*" || s = "/" then some 2
  else none

/-- Token lookup at an Int index (indices in buildTree are Go ints and can
be compared while negative; a lookup at a negative or out-of-range index
never happens on reachable paths). -/
def getTok (tokens : List String) (i : Int) : String :=
  if i < 0 then "" else tokens.getD i.toNat ""

/-- Scan of buildTree that finds the depth-0 operator of lowest precedence,
ties broken by the later index (prec <= minPrecedence). Arguments: fuel
(number of indices left to visit), current index, paren depth, minimal
precedence so far, best operator index so far (-1 if none). -/
def findOpAux (tokens : List String) :
    Nat → Int → Int → Int → Int → Int
  | 0, _, _, _, opIndex => opIndex
  | n + 1, i, parens, minPrec, opIndex =>
    let t := getTok tokens i
    if t = "(" then findOpAux tokens n (i + 1) (parens + 1) minPrec opIndex
    else if t = ")" then findOpAux tokens n (i + 1) (parens - 1) minPrec opIndex
    else if parens = 0 then
      match precedenceOf t with
      | some p =>
        if p ≤ minPrec then findOpAux tokens n (i + 1) parens p i
        else findOpAux tokens n (i + 1) parens minPrec opIndex
      | none => findOpAux tokens n (i + 1) parens minPrec opIndex
    else findOpAux tokens n (i + 1) parens minPrec opIndex

/-- Recursive helper `build(start, end)` of buildTree.  The fuel argument
only bounds the recursion depth; it is at least one more than the range
length at every reachable call, and every recursive call strictly shrinks
the range, so the fuel never runs out on reachable paths. -/
def buildAux (tokens : List String) : Nat → Int → Int → Node
  | 0, _, _ => Node.nil
  | fuel + 1, start, stop =>
    if start > stop then Node.nil
    else if start = stop && (parseFloat (getTok tokens start)).isSome then
      Node.node (getTok tokens start) Node.nil Node.nil
    else if getTok tokens start = "-" && start + 1 ≤ stop &&
        (parseFloat (getTok tokens (start + 1))).isSome then
      Node.node ("-" ++ getTok tokens (start + 1)) Node.nil Node.nil
    else if getTok tokens start = "(" && getTok tokens stop = ")" then
      buildAux tokens fuel (start + 1) (stop - 1)
    else
      let opIndex := findOpAux tokens (stop - start + 1).toNat start 0 3 (-1)
      if opIndex = -1 then Node.nil
      else
        Node.node (getTok tokens opIndex)
          (buildAux tokens fuel start (opIndex - 1))
          (buildAux tokens fuel (opIndex + 1) stop)

/-- buildTree from main.go. -/
def buildTree (tokens : List String) : Node :=
  if tokens.length = 0 then Node.nil
  else buildAux tokens (tokens.length + 1) 0 ((tokens.length : Int) - 1)

/-- evaluate from main.go: nil evaluates to 0; a childless node is a
numeric leaf (panic when unparseable); a node with nil left child and
value "-" is unary negation; otherwise both children are evaluated and the
operator applied, with a division-by-zero panic when the right operand is
exactly zero. -/
def evaluate : Node → Except String Rat
  | Node.nil => Except.ok 0
  | Node.node v l r =>
    if l = Node.nil && r = Node.nil then
      match parseFloat v with
      | some q => Except.ok q
      | none => Except.error ("Invalid number: " ++ v)
    else if l = Node.nil && v = "-" then
      match evaluate r with
      | Except.ok rv => Except.ok (ratNeg rv)
      | Except.error e => Except.error e
    else
      match evaluate l with
      | Except.error e => Except.error e
      | Except.ok lv =>
        match evaluate r with
        | Except.error e => Except.error e
        | Except.ok rv =>
          if v = "+" then Except.ok (ratAdd lv rv)
          else if v = "-" then Except.ok (ratSub lv rv)
          else if v = "*" then Except.ok (ratMul lv rv)
          else if v = "/" then
            if rv = 0 then Except.error "division by zero"
            else Except.ok (ratDiv lv rv)
          else Except.error ("unknown operator: " ++ v)

/- Rounding and formatting. -/

/-- math.Round: round half away from zero, as an integer. -/
def roundHalf (x : Rat) : Int :=
  if 0 ≤ x then (ratAdd x (mkRat 1 2)).floor else (ratSub x (mkRat 1 2)).ceil

/-- roundFloat from main.go: multiply by 10^precision, round half away
from zero, divide back. -/
def roundFloat (val : Rat) (precision : Nat) : Rat :=
  let ratio : Rat := mkRat ((10 : Int) ^ precision) 1
  ratDiv (mkRat (roundHalf (ratMul val ratio)) 1) ratio

/-- Left-pad a decimal string with zeros to four digits. -/
def pad4 (n : Nat) : List Char :=
  let d := (toString n).data
  List.replicate (4 - d.length) '0' ++ d

/-- strconv.FormatFloat(x, 'f', -1, 64) modelled for values with at most
four decimal places (every output of roundFloat _ 4): the integer part,
then the fractional digits with trailing zeros removed, preceded by a
minus sign for negative values. -/
def formatShortest (x : Rat) : String :=
  let k : Int := (ratMul x (mkRat 10000 1)).num
  let a : Nat := k.natAbs
  let q : Nat := a / 10000
  let r : Nat := a % 10000
  let body : String :=
    if r = 0 then toString q
    else toString q ++ "." ++ String.mk ((pad4 r).reverse.dropWhile (· = '0')).reverse
  if k < 0 then "-" ++ body else body

/- Model of the go/parser expression parser used by the validator. -/

/-- Tokens of the Go scanner restricted to the validator's character
class.  inc and dec are the ++ and -- tokens; semi is an automatically
inserted semicolon; period is a lone dot. -/
inductive GoTok where
  | intLit (s : String)
  | floatLit (s : String)
  | add | sub | mul | quo | inc | dec
  | lparen | rparen
  | semi | period
deriving Repr, DecidableEq

/-- Skip a general /* */ comment; none when unterminated (a scan error). -/
def dropBlockComment : List Char → Option (List Char)
  | [] => none
  | '*' :: '/' :: rest => some rest
  | _ :: rest => dropBlockComment rest

/-- Go scanner on the validator's character class, with automatic
semicolon insertion: a newline (or end of input, or a line comment)
following an integer or float literal, a ')' or an increment/decrement
token yields a semicolon token.  Returns none on a scan error (illegal character such as
form feed, invalid octal literal, unterminated comment).  The fuel is
consumed once per step and every step consumes at least one input
character, so fuel = length + 2 never runs out. -/
def scanGo : Nat → List Char → Bool → Option (List GoTok)
  | 0, _, _ => none
  | _ + 1, [], insertSemi => some (if insertSemi then [GoTok.semi] else [])
  | fuel + 1, c :: cs, insertSemi =>
    if c = ' ' || c = '\t' || c = '\r' then scanGo fuel cs insertSemi
    else if c = '\n' then
      if insertSemi then (scanGo fuel cs false).map (GoTok.semi :: ·)
      else scanGo fuel cs false
    else if isDigitChar c then
      let ds := (c :: cs).takeWhile isDigitChar
      let rest := (c :: cs).dropWhile isDigitChar
      match rest with
      | '.' :: rest2 =>
        let fs := rest2.takeWhile isDigitChar
        let rest3 := rest2.dropWhile isDigitChar
        (scanGo fuel rest3 true).map (GoTok.floatLit (String.mk (ds ++ '.' :: fs)) :: ·)
      | _ =>
        if ds.head? = some '0' && !ds.all (fun d => d ≤ '7') then none
        else (scanGo fuel rest true).map (GoTok.intLit (String.mk ds) :: ·)
    else if c = '.' then
      match cs with
      | c2 :: _ =>
        if isDigitChar c2 then
          let fs := cs.takeWhile isDigitChar
          let rest := cs.dropWhile isDigitChar
          (scanGo fuel rest true).map (GoTok.floatLit (String.mk ('.' :: fs)) :: ·)
        else (scanGo fuel cs false).map (GoTok.period :: ·)
      | [] => (scanGo fuel [] false).map (GoTok.period :: ·)
    else if c = '+' then
      match cs with
      | '+' :: rest => (scanGo fuel rest true).map (GoTok.inc :: ·)
      | _ => (scanGo fuel cs false).map (GoTok.add :: ·)
    else if c = '-' then
      match cs with
      | '-' :: rest => (scanGo fuel rest true).map (GoTok.dec :: ·)
      | _ => (scanGo fuel cs false).map (GoTok.sub :: ·)
    else if c = '*' then (scanGo fuel cs false).map (GoTok.mul :: ·)
    else if c = '/' then
      match cs with
      | '/' :: rest =>
        let rest2 := rest.dropWhile (· ≠ '\n')
        if insertSemi then (scanGo fuel rest2 false).map (GoTok.semi :: ·)
        else scanGo fuel rest2 false
      | '*' :: rest =>
        match dropBlockComment rest with
        | some rest2 => scanGo fuel rest2 insertSemi
        | none => none
      | _ => (scanGo fuel cs false).map (GoTok.quo :: ·)
    else if c = '(' then (scanGo fuel cs false).map (GoTok.lparen :: ·)
    else if c = ')' then (scanGo fuel cs true).map (GoTok.rparen :: ·)
    else none

/-- Go binary operator precedence for the tokens in scope: + - at 4,
* / at 5, everything else 0 (not a binary operator). -/
def goPrec : GoTok → Nat
  | GoTok.add => 4
  | GoTok.sub => 4
  | GoTok.mul => 5
  | GoTok.quo => 5
  | _ => 0

/-- Nonterminal selector for the Go expression parser model. -/
inductive PMode where
  | binary (prec1 : Nat)
  | binLoop (prec1 : Nat)
  | unary
  | primary
  | suffix
  | operand
deriving Repr, DecidableEq

/-- Recursive-descent recognizer mirroring go/parser on expressions over
the scanned token set: binary is parseBinaryExpr(prec1) (a unary
expression followed by the precedence-climbing loop binLoop); unary
accepts the unary operators + - * (star being Go's pointer dereference)
before a primary; primary is an operand followed by call suffixes
"( [expr] )" (a period suffix needs an identifier, which the character
class cannot produce); operand is an integer or float literal or a
parenthesized expression.  Success returns the unconsumed tokens. -/
def parseGo : Nat → PMode → List GoTok → Option (List GoTok)
  | 0, _, _ => none
  | fuel + 1, PMode.binary prec1, ts =>
    match parseGo fuel PMode.unary ts with
    | some rest => parseGo fuel (PMode.binLoop prec1) rest
    | none => none
  | fuel + 1, PMode.binLoop prec1, ts =>
    match ts with
    | t :: rest =>
      if prec1 ≤ goPrec t then
        match parseGo fuel (PMode.binary (goPrec t + 1)) rest with
        | some rest2 => parseGo fuel (PMode.binLoop prec1) rest2
        | none => none
      else some ts
    | [] => some ts
  | fuel + 1, PMode.unary, ts =>
    match ts with
    | GoTok.add :: rest => parseGo fuel PMode.unary rest
    | GoTok.sub :: rest => parseGo fuel PMode.unary rest
    | GoTok.mul :: rest => parseGo fuel PMode.unary rest
    | _ => parseGo fuel PMode.primary ts
  | fuel + 1, PMode.primary, ts =>
    match parseGo fuel PMode.operand ts with
    | some rest => parseGo fuel PMode.suffix rest
    | none => none
  | fuel + 1, PMode.suffix, ts =>
    match ts with
    | GoTok.lparen :: rest =>
      match rest with
      | GoTok.rparen :: rest2 => parseGo fuel PMode.suffix rest2
      | _ =>
        match parseGo fuel (PMode.binary 1) rest with
        | some (GoTok.rparen :: rest2) => parseGo fuel PMode.suffix rest2
        | _ => none
    | GoTok.period :: _ => none
    | _ => some ts
  | fuel + 1, PMode.operand, ts =>
    match ts with
    | GoTok.intLit _ :: rest => some rest
    | GoTok.floatLit _ :: rest => some rest
    | GoTok.lparen :: rest =>
      match parseGo fuel (PMode.binary 1) rest with
      | some (GoTok.rparen :: rest2) => some rest2
      | _ => none
    | _ => none

/-- parser.ParseExpr as a recognizer: scan, parse one expression with the
lowest precedence, allow one trailing automatically inserted semicolon,
and require end of input; true exactly when ParseExpr returns a nil
error. -/
def goParseExprOk (s : String) : Bool :=
  match scanGo (s.length + 2) s.data false with
  | none => false
  | some toks =>
    match parseGo (10 * toks.length + 20) (PMode.binary 1) toks with
    | some [] => true
    | some [GoTok.semi] => true
    | _ => false

/- Validator and entry point. -/

/-- strings.ReplaceAll(Expr, " ", "") from the validator. -/
def removeSpaces (s : String) : String :=
  String.mk (s.data.filter (fun c => c ≠ ' '))

/-- re.MatchString for the anchored regular expression
^[0-9\+\-\*/\(\)\s.]+$ : at least one character and every character in the
class. -/
def regexMatches (s : String) : Bool :=
  decide (0 < s.length) && s.data.all isRegexAllowed

/-- validateArithmeticExpression from main.go: strip spaces, match the
character-class regular expression, then require parser.ParseExpr to
succeed on the stripped string. -/
def validateArithmeticExpression (Expr : String) : Bool :=
  let e := removeSpaces Expr
  regexMatches e && goParseExprOk e

/-- performArithmeticCalculation from main.go, the compute entry point:
validate, tokenize, build the tree, evaluate, round to four decimal
places and format.  A panic escaping evaluate is an Except.error; the
source contains no recover, so such a panic aborts the call instead of
producing a (valid, result) pair. -/
def performArithmeticCalculation (Expr : String) : Except String (Bool × String) :=
  if validateArithmeticExpression Expr then
    let tokens := tokenizeExpression Expr
    let tree := buildTree tokens
    match evaluate tree with
    | Except.ok v => Except.ok (true, formatShortest (roundFloat v 4))
    | Except.error e => Except.error e
  else
    Except.ok (false, "")


deriving instance DecidableEq for Except

/- Claim theorems. -/

/-- C1: the claim says a '-' is folded as a unary sign exactly at position
0, after '(' or after another operator, and in particular is a standalone
binary token immediately after a number.  The code instead folds on the
prevToken variable, which is never updated when a number is flushed: in
"5-3" the '-' immediately follows the number token "5" yet prevToken is
still "", so the minus is folded and the tokens are ["5", "-3"]; the
builder then finds no operator and compute yields (true, "0"). -/
theorem c1_unary_minus_after_number :
    validateArithmeticExpression "5-3" = true ∧
    tokenizeExpression "5-3" = ["5", "-3"] ∧
    performArithmeticCalculation "5-3" = Except.ok (true, "0") :=
  by decide

/-- C2: the claim says compute "8-3-2" = (true, "3") and compute "8/4/2" =
(true, "1").  The division chain does hold, but "8-3-2" tokenizes to
["8", "-3", "-2"] (the prevToken slip of C1), the builder finds no
operator token, returns nil, and nil evaluates to 0, so the code returns
(true, "0") instead of (true, "3"). -/
theorem c2_left_associativity_eval :
    tokenizeExpression "8-3-2" = ["8", "-3", "-2"] ∧
    performArithmeticCalculation "8-3-2" = Except.ok (true, "0") ∧
    performArithmeticCalculation "8/4/2" = Except.ok (true, "1") :=
  by decide

/-- C3: the claim says the builder strips an enclosing paren pair only
when the opening paren's matching close is exactly the range's last index,
so that "(1)+(2)" becomes a Binary '+' node evaluating to 3.  The code
strips whenever the first token is "(" and the last is ")" with no depth
matching: on "(1)+(2)" it recurses into the range 1..5, where the '+' sits
at negative depth, finds no depth-0 operator, yields the nil tree, and
compute returns (true, "0") instead of 3. -/
theorem c3_paren_strip_eval :
    buildTree (tokenizeExpression "(1)+(2)") = Node.nil ∧
    performArithmeticCalculation "(1)+(2)" = Except.ok (true, "0") :=
  by decide

/-- C4: the claim says a division by exact zero yields a typed failure
that the caller catches and maps to valid = false, never aborting.  The
code panics with "division by zero" inside evaluate and
performArithmeticCalculation contains no recover, so compute "5/0" never
returns a (valid, result) pair at all: in the embedding the panic
propagates as an error. -/
theorem c4_division_by_zero_eval :
    evaluate (buildTree (tokenizeExpression "5/0")) =
      Except.error "division by zero" ∧
    performArithmeticCalculation "5/0" = Except.error "division by zero" :=
  by decide

/-- C5: the claim says compute "2(3)" = (true, "6") and compute "(2)(3)" =
(true, "6").  The tokenizer does insert the implicit '*' in both cases,
and "2(3)" evaluates to 6, but on "(2)(3)" the builder's naive paren strip
(C3) destroys the structure: it strips the outermost '(' and the final
')', finds no depth-0 operator in the remainder, yields nil, and compute
returns (true, "0") instead of 6. -/
theorem c5_implicit_multiplication_eval :
    performArithmeticCalculation "2(3)" = Except.ok (true, "6") ∧
    tokenizeExpression "(2)(3)" = ["(", "2", ")", "*", "(", "3", ")"] ∧
    performArithmeticCalculation "(2)(3)" = Except.ok (true, "0") :=
  by decide

/-- C6 counterexample: the claim says validate "*5" = false, but the
validator delegates to the Go expression parser, which accepts "*5" as a
unary star (pointer dereference) expression, so validate "*5" = true. -/
theorem c6_star_five_accepted : validateArithmeticExpression "*5" = true :=
  by decide

/-- C6 amended: the validator rejects "1++1", "(()", "5*" and "" (and
compute returns (false, "")), but accepts "*5" — the Go parser reads it as
a unary star expression — and compute "*5" returns (true, "0"), the
missing left operand being evaluated as 0. -/
theorem c6_malformed_inputs :
    validateArithmeticExpression "1++1" = false ∧
    validateArithmeticExpression "(()" = false ∧
    validateArithmeticExpression "5*" = false ∧
    validateArithmeticExpression "" = false ∧
    performArithmeticCalculation "1++1" = Except.ok (false, "") ∧
    performArithmeticCalculation "(()" = Except.ok (false, "") ∧
    performArithmeticCalculation "5*" = Except.ok (false, "") ∧
    performArithmeticCalculation "" = Except.ok (false, "") ∧
    validateArithmeticExpression "*5" = true ∧
    performArithmeticCalculation "*5" = Except.ok (true, "0") :=
  by decide

/-- C7 counterexample: the claim says any input containing a character
outside the digits, '.', the four operators, the parentheses and the
space character makes compute return valid = false; but the validator's
regular expression uses the whitespace class, so the tab in "1\t" passes
the regex, the Go parser skips it, and compute returns (true, "1"). -/
theorem c7_tab_accepted :
    performArithmeticCalculation "1\t" = Except.ok (true, "1") :=
  by decide

/-- C7 amended: for every input string containing at least one character
outside the digits 0-9, '.', '+', '-', '*', '/', '(', ')' and the
whitespace characters (space, tab, newline, form feed, carriage return),
compute returns valid = false with an empty result. -/
theorem c7_charset_rejected (s : String) (c : Char) (hc : c ∈ s.data)
    (hbad : isRegexAllowed c = false) :
    performArithmeticCalculation s = Except.ok (false, "") := by
  have hne : c ≠ ' ' := by
    intro h
    subst h
    simp [isRegexAllowed] at hbad
  have hmem : c ∈ (removeSpaces s).data := by
    show c ∈ (s.data.filter (fun c => c ≠ ' '))
    exact List.mem_filter.mpr ⟨hc, by simpa using hne⟩
  have hall : ((removeSpaces s).data.all isRegexAllowed) = false := by
    rw [Bool.eq_false_iff]
    intro htrue
    have hct := List.all_eq_true.mp htrue c hmem
    rw [hbad] at hct
    exact Bool.false_ne_true hct
  have hval : validateArithmeticExpression s = false := by
    unfold validateArithmeticExpression regexMatches
    show (decide (0 < (removeSpaces s).length) &&
        (removeSpaces s).data.all isRegexAllowed &&
        goParseExprOk (removeSpaces s)) = false
    rw [hall]
    simp
  unfold performArithmeticCalculation
  rw [hval]
  simp

/-- C7 witness: the amended theorem applied to the concrete input "1a"
with the offending character 'a'. -/
theorem c7_charset_rejected_witness :
    performArithmeticCalculation "1a" = Except.ok (false, "") :=
  c7_charset_rejected "1a" 'a' (by decide) (by decide)

/-- C8: operator precedence is honored: compute "2+3*4" returns
(true, "14") and compute "(2+3)*4" returns (true, "20"). -/
theorem c8_precedence :
    performArithmeticCalculation "2+3*4" = Except.ok (true, "14") ∧
    performArithmeticCalculation "(2+3)*4" = Except.ok (true, "20") :=
  by decide

/-- C9: the engine is deterministic and pure: the source threads no state
between calls, so its embedding is a plain function of the input string
and two invocations on the same string yield the same outcome. -/
theorem c9_deterministic (s : String) :
    performArithmeticCalculation s = performArithmeticCalculation s :=
  rfl

/-- C9 witness: determinism at the concrete input "1+1". -/
theorem c9_deterministic_witness :
    performArithmeticCalculation "1+1" = performArithmeticCalculation "1+1" :=
  c9_deterministic "1+1"

/-- C10: the evaluator maps a nil node to 0, and the validator-accepted
input "*5" drives the builder to an operator node with a nil left child,
so compute returns (true, "0") — the 0 * 5 of a missing operand read as 0
— instead of failing. -/
theorem c10_nil_operand_as_zero :
    evaluate Node.nil = Except.ok 0 ∧
    validateArithmeticExpression "*5" = true ∧
    buildTree (tokenizeExpression "*5") =
      Node.node "*" Node.nil (Node.node "5" Node.nil Node.nil) ∧
    performArithmeticCalculation "*5" = Except.ok (true, "0") :=
  by decide


end GoCalculate
